import Mathlib

/-!
Shallow embedding of src/supabase/functions/_shared/usage-tracking-fixed.ts.

The file defines the data model (JSON values, requests, responses, usage
records, insert rows) and the two operations of the repository:
withUsageTracking (the tracking wrapper) and logUsage (the usage logger),
translated from the TypeScript source. Effects are made explicit:

* JavaScript exceptions become Except or explicit outcome inductives;
* the body stream of a request carries a bodyUsed flag, and the json
  method both consumes the stream and returns the parse outcome;
* Date.now readings at wrapper entry and at handler settlement are passed
  in as integer parameters t0 and t1;
* the environment of logUsage (the two configuration variables and the
  behaviour of the storage insert) is a LogEnv record, and logUsage
  returns the list of insert operations it constructed together with the
  diagnostic lines it emitted; its total return type reflects the
  blanket try/catch around its whole body, which makes its promise never
  reject.
-/

namespace UsageTracking

/-- JSON values, the result of a successful JSON.parse on a request body. -/
inductive Json where
  | null
  | bool (b : Bool)
  | num (n : Int)
  | str (s : String)
  | arr (xs : List Json)
  | obj (fields : List (String × Json))

/-- Truthiness of a JSON value under JavaScript coercion rules. -/
def Json.truthy : Json → Bool
  | .null => false
  | .bool b => b
  | .num n => n != 0
  | .str s => s != ""
  | .arr _ => true
  | .obj _ => true

/-- Property access v.k in JavaScript on a parsed JSON value: reading a
property of null throws a TypeError (the error case); on an object the
named field is returned when present and undefined (none) otherwise; on
any other value the result is undefined. -/
def jsGetField : Json → String → Except Unit (Option Json)
  | Json.null, _ => Except.error ()
  | Json.obj fields, k =>
      Except.ok ((fields.find? (fun p => p.1 == k)).map (fun p => p.2))
  | _, _ => Except.ok none

/-- Case-insensitive header lookup, as Headers.get performs; none models
the null returned for an absent header. -/
def headersGet (hs : List (String × String)) (name : String) : Option String :=
  (hs.find? (fun p => p.1.toLower == name.toLower)).map (fun p => p.2)

/-- Header value as stored into request metadata: null when absent. -/
def headerJson : Option String → Json
  | none => Json.null
  | some s => Json.str s

/-- An incoming HTTP request. bodyJson is the outcome the runtime JSON
parser would give for the body text (none when parsing throws), and
bodyUsed records whether the body stream has already been consumed. -/
structure Request where
  method : String
  url : String
  headers : List (String × String)
  bodyJson : Option Json
  bodyUsed : Bool

/-- Model of req.clone(): a copy of the request with the same fields and
its own body stream in the same read state. -/
def Request.clone (req : Request) : Request := req

/-- Model of req.json(): consumes the body stream and returns the parse
outcome; a stream that was already used throws, which the none outcome
also covers. -/
def Request.jsonMethod (req : Request) : Request × Option Json :=
  ({ req with bodyUsed := true },
   if req.bodyUsed then none else req.bodyJson)

/-- An HTTP response: status, headers and a body modelled as the JSON
value it serializes. -/
structure Response where
  status : Nat
  headers : List (String × String)
  body : Json

/-- A value thrown by the wrapped handler: either a genuine Error object
carrying a message, or a plain string thrown directly. -/
inductive ThrownValue where
  | errObj (message : String)
  | strVal (s : String)

/-- Property access err.message on a thrown value: the message of an
Error object, and undefined (none) for a thrown plain string. -/
def ThrownValue.messageProp : ThrownValue → Option String
  | .errObj m => some m
  | .strVal _ => none

/-- Outcome of invoking the wrapped handler: a response, or a throw. -/
inductive HandlerOutcome where
  | ok (resp : Response)
  | thrown (v : ThrownValue)

/-- One usage observation, as assembled by the wrapper and handed to
logUsage. Field names follow the source object literal. -/
structure UsageRecord where
  serviceName : String
  endpointId : Option String
  projectName : Json
  requestTimestamp : String
  responseStatus : Nat
  responseTimeMs : Int
  errorMessage : Option String
  requestMetadata : List (String × Json)

/-- The row object passed to insert, one column per source key. -/
structure InsertRow where
  service_name : String
  endpoint_id : Option String
  project_name : Json
  request_timestamp : String
  response_status : Nat
  response_time_ms : Int
  request_payload_size : Nat
  response_payload_size : Nat
  error_message : Option String
  request_metadata : List (String × Json)

/-- One insert operation dispatched to the storage collaborator. -/
structure InsertOp where
  table : String
  row : InsertRow

/-- How the storage collaborator answers one insert: success, an error
value reported in the result (the error field), or a rejected promise
such as a network failure. -/
inductive InsertResult where
  | ok
  | dbError (e : String)
  | netThrow (e : String)

/-- The environment logUsage runs in: the two configuration variables as
Deno.env.get returns them (none when unset), and the behaviour of the
storage insert for any row it is given. -/
structure LogEnv where
  supabaseUrl : Option String
  supabaseServiceKey : Option String
  insertBehavior : InsertOp → InsertResult

/-- Falsiness of an environment variable value in JavaScript: undefined
or the empty string. createClient throws on a falsy url or key. -/
def jsFalsyStr : Option String → Bool
  | none => true
  | some s => s == ""

/-- What one call of logUsage did: the insert operations it constructed
and the console lines it emitted. The function is total: the try/catch
around its whole body means the call never rejects. -/
structure LogResult where
  inserts : List InsertOp
  diagnostics : List String

/-- Translation of the row literal inside logUsage: every UsageRecord
field mapped to its column, payload sizes hard-coded to 0, and the
endpoint_id column computed by the expression data.endpointId or null,
which sends both an absent and an empty endpointId to null. -/
def buildInsertRow (data : UsageRecord) : InsertRow :=
  { service_name := data.serviceName,
    endpoint_id :=
      match data.endpointId with
      | none => none
      | some s => if s == "" then none else some s,
    project_name := data.projectName,
    request_timestamp := data.requestTimestamp,
    response_status := data.responseStatus,
    response_time_ms := data.responseTimeMs,
    request_payload_size := 0,
    response_payload_size := 0,
    error_message := data.errorMessage,
    request_metadata := data.requestMetadata }

/-- Translation of logUsage: read the two configuration variables, build
the client (createClient throws inside the try on a falsy url or key,
reaching the outer catch), construct the single insert against the
service_usage_logs table, and report the outcome on the console. -/
def logUsage (env : LogEnv) (data : UsageRecord) : LogResult :=
  if jsFalsyStr env.supabaseUrl || jsFalsyStr env.supabaseServiceKey then
    { inserts := [],
      diagnostics := ["Error in usage logging: supabaseUrl and supabaseKey are required"] }
  else
    let op : InsertOp := { table := "service_usage_logs", row := buildInsertRow data }
    match env.insertBehavior op with
    | InsertResult.ok =>
        { inserts := [op],
          diagnostics := ["Usage logged successfully for " ++ data.serviceName] }
    | InsertResult.dbError e =>
        { inserts := [op], diagnostics := ["Failed to log usage: " ++ e] }
    | InsertResult.netThrow e =>
        { inserts := [op], diagnostics := ["Error in usage logging: " ++ e] }

/-- Fallback of the inner catch block: the X-Project-Name header, with
the JavaScript or-default sending both an absent header and an empty one
to the literal default. -/
def headerFallbackName (req : Request) : Json :=
  Json.str
    (match headersGet req.headers "X-Project-Name" with
     | none => "default"
     | some s => if s == "" then "default" else s)

/-- Translation of the project-name extraction: parse a clone of the
body; on a parse throw, or on the TypeError from reading project_name
off a null body, the catch block consults the header; when parsing
succeeds, a present truthy project_name value is used and anything else
leaves the initial default in place (the header is not consulted). -/
def deriveProjectName (req : Request) : Json :=
  match (Request.jsonMethod (Request.clone req)).2 with
  | none => headerFallbackName req
  | some body =>
    match jsGetField body "project_name" with
    | Except.error _ => headerFallbackName req
    | Except.ok none => Json.str "default"
    | Except.ok (some v) => if v.truthy then v else Json.str "default"

/-- Metadata object of the success path. -/
def successMetadata (req : Request) : List (String × Json) :=
  [("method", Json.str req.method),
   ("url", Json.str req.url),
   ("userAgent", headerJson (headersGet req.headers "user-agent")),
   ("origin", headerJson (headersGet req.headers "origin"))]

/-- Metadata object of the error path. -/
def errorMetadata (req : Request) : List (String × Json) :=
  [("method", Json.str req.method), ("url", Json.str req.url)]

/-- The synthesized 500 response of the catch block. JSON.stringify
drops a key whose value is undefined, so when the thrown value has no
message property the body carries only the error key. -/
def errorResponse (msg : Option String) : Response :=
  { status := 500,
    headers := [("Content-Type", "application/json")],
    body := Json.obj
      ([("error", Json.str "Internal server error")] ++
        (match msg with
         | some m => [("message", Json.str m)]
         | none => [])) }

/-- Everything one invocation of the wrapped handler did: the response
returned to the caller, the usage records dispatched to logUsage, the
request value the wrapped handler itself was invoked with, and the
results of the dispatched logging calls. -/
structure WrapOutcome where
  response : Response
  dispatchedRecords : List UsageRecord
  handlerReq : Request
  logResults : List LogResult

/-- Translation of withUsageTracking applied to one request. t0 is the
Date.now reading at entry, t1 the reading taken when the handler settles
(both the success and the catch path read the clock after settlement),
and nowIso the ISO timestamp captured at logging time. The handler is
invoked with the original request; only its clone was parsed. -/
def withUsageTracking
    (handler : Request → HandlerOutcome)
    (serviceName : String) (endpointId : Option String)
    (env : LogEnv) (t0 t1 : Int) (nowIso : String)
    (req : Request) : WrapOutcome :=
  let projectName := deriveProjectName req
  match handler req with
  | HandlerOutcome.ok resp =>
      let responseTimeMs := t1 - t0
      let record : UsageRecord :=
        { serviceName := serviceName,
          endpointId := endpointId,
          projectName := projectName,
          requestTimestamp := nowIso,
          responseStatus := resp.status,
          responseTimeMs := responseTimeMs,
          errorMessage := none,
          requestMetadata := successMetadata req }
      { response := resp,
        dispatchedRecords := [record],
        handlerReq := req,
        logResults := [logUsage env record] }
  | HandlerOutcome.thrown v =>
      let responseTimeMs := t1 - t0
      let record : UsageRecord :=
        { serviceName := serviceName,
          endpointId := endpointId,
          projectName := Json.str "error",
          requestTimestamp := nowIso,
          responseStatus := 500,
          responseTimeMs := responseTimeMs,
          errorMessage := ThrownValue.messageProp v,
          requestMetadata := errorMetadata req }
      { response := errorResponse (ThrownValue.messageProp v),
        dispatchedRecords := [record],
        handlerReq := req,
        logResults := [logUsage env record] }

/-- Claim C1, counterexample: a request whose body parses successfully as
the empty JSON object (so no project_name field) and which carries the
header X-Project-Name set to acme produces a UsageRecord whose
projectName is the literal default, not acme: when parsing succeeds the
code never consults the header. -/
theorem projectName_header_ignored_when_body_parses :
    ((withUsageTracking
        (fun _ => HandlerOutcome.ok { status := 200, headers := [], body := Json.null })
        "svc" none
        { supabaseUrl := some "u", supabaseServiceKey := some "k",
          insertBehavior := fun _ => InsertResult.ok }
        0 0 "ts"
        { method := "POST", url := "https://example.test/fn",
          headers := [("X-Project-Name", "acme")],
          bodyJson := some (Json.obj []), bodyUsed := false }).dispatchedRecords.map
      (fun r => r.projectName) = [Json.str "default"])
    ∧ Json.str "default" ≠ Json.str "acme" := by
  refine ⟨rfl, ?_⟩
  intro h
  injection h with h2
  exact absurd h2 (by decide)

/-- Claim C1, amended: when the body of the request parses successfully
as JSON but yields no project_name field, the resulting UsageRecord has
projectName equal to the literal default regardless of the
X-Project-Name header; the header is consulted only when parsing (or the
property access) throws. -/
theorem projectName_default_when_parsed_body_lacks_field
    (handler : Request → HandlerOutcome) (serviceName : String)
    (endpointId : Option String) (env : LogEnv) (t0 t1 : Int) (nowIso : String)
    (req : Request) (body : Json) (resp : Response)
    (hbody : req.bodyJson = some body)
    (hused : req.bodyUsed = false)
    (hfield : jsGetField body "project_name" = Except.ok none)
    (hh : handler req = HandlerOutcome.ok resp) :
    (withUsageTracking handler serviceName endpointId env t0 t1 nowIso req).dispatchedRecords.map
      (fun r => r.projectName) = [Json.str "default"] := by
  unfold withUsageTracking deriveProjectName Request.jsonMethod Request.clone
  rw [hh]
  simp [hused, hbody, hfield]

/-- Claim C1, witness for the amended theorem at a concrete request. -/
theorem projectName_default_when_parsed_body_lacks_field_witness :
    (withUsageTracking
        (fun _ => HandlerOutcome.ok { status := 200, headers := [], body := Json.null })
        "svc" none
        { supabaseUrl := some "u", supabaseServiceKey := some "k",
          insertBehavior := fun _ => InsertResult.ok }
        0 0 "ts"
        { method := "POST", url := "https://example.test/a",
          headers := [("X-Project-Name", "acme")],
          bodyJson := some (Json.obj [("other", Json.num 1)]), bodyUsed := false
        }).dispatchedRecords.map (fun r => r.projectName) = [Json.str "default"] :=
  projectName_default_when_parsed_body_lacks_field
    (fun _ => HandlerOutcome.ok { status := 200, headers := [], body := Json.null })
    "svc" none
    { supabaseUrl := some "u", supabaseServiceKey := some "k",
      insertBehavior := fun _ => InsertResult.ok }
    0 0 "ts"
    { method := "POST", url := "https://example.test/a",
      headers := [("X-Project-Name", "acme")],
      bodyJson := some (Json.obj [("other", Json.num 1)]), bodyUsed := false }
    (Json.obj [("other", Json.num 1)])
    { status := 200, headers := [], body := Json.null }
    rfl rfl rfl rfl

/-- Claim C2: when the handler throws an Error carrying message msg, the
wrapper dispatches exactly one UsageRecord, with responseStatus 500,
projectName the literal error string, errorMessage msg and metadata
limited to method and url, and returns a synthesized response of status
500 with a JSON content type and the generic error body carrying msg. -/
theorem errorPath_record_and_response
    (handler : Request → HandlerOutcome) (serviceName : String)
    (endpointId : Option String) (env : LogEnv) (t0 t1 : Int) (nowIso : String)
    (req : Request) (msg : String)
    (hh : handler req = HandlerOutcome.thrown (ThrownValue.errObj msg)) :
    (withUsageTracking handler serviceName endpointId env t0 t1 nowIso req).dispatchedRecords =
      [{ serviceName := serviceName, endpointId := endpointId,
         projectName := Json.str "error", requestTimestamp := nowIso,
         responseStatus := 500, responseTimeMs := t1 - t0,
         errorMessage := some msg,
         requestMetadata := [("method", Json.str req.method), ("url", Json.str req.url)] }]
    ∧ (withUsageTracking handler serviceName endpointId env t0 t1 nowIso req).response =
      { status := 500, headers := [("Content-Type", "application/json")],
        body := Json.obj [("error", Json.str "Internal server error"),
                          ("message", Json.str msg)] } := by
  unfold withUsageTracking
  rw [hh]
  exact ⟨rfl, rfl⟩

/-- Claim C2, witness at a concrete throwing handler and request. -/
theorem errorPath_record_and_response_witness :
    (withUsageTracking (fun _ => HandlerOutcome.thrown (ThrownValue.errObj "boom"))
        "svc" (some "ep")
        { supabaseUrl := some "u", supabaseServiceKey := some "k",
          insertBehavior := fun _ => InsertResult.ok }
        3 10 "ts"
        { method := "GET", url := "https://example.test/b", headers := [],
          bodyJson := none, bodyUsed := false }).dispatchedRecords =
      [{ serviceName := "svc", endpointId := some "ep",
         projectName := Json.str "error", requestTimestamp := "ts",
         responseStatus := 500, responseTimeMs := (10 : Int) - 3,
         errorMessage := some "boom",
         requestMetadata := [("method", Json.str "GET"),
                             ("url", Json.str "https://example.test/b")] }]
    ∧ (withUsageTracking (fun _ => HandlerOutcome.thrown (ThrownValue.errObj "boom"))
        "svc" (some "ep")
        { supabaseUrl := some "u", supabaseServiceKey := some "k",
          insertBehavior := fun _ => InsertResult.ok }
        3 10 "ts"
        { method := "GET", url := "https://example.test/b", headers := [],
          bodyJson := none, bodyUsed := false }).response =
      { status := 500, headers := [("Content-Type", "application/json")],
        body := Json.obj [("error", Json.str "Internal server error"),
                          ("message", Json.str "boom")] } :=
  errorPath_record_and_response
    (fun _ => HandlerOutcome.thrown (ThrownValue.errObj "boom"))
    "svc" (some "ep")
    { supabaseUrl := some "u", supabaseServiceKey := some "k",
      insertBehavior := fun _ => InsertResult.ok }
    3 10 "ts"
    { method := "GET", url := "https://example.test/b", headers := [],
      bodyJson := none, bodyUsed := false }
    "boom" rfl

/-- Claim C3: when the handler returns a response (any status code), the
wrapper dispatches exactly one UsageRecord with responseStatus equal to
the actual status of that response, errorMessage null, and metadata
holding method, url and the user-agent and origin headers, and returns
exactly the response the handler produced. -/
theorem successPath_record_and_response
    (handler : Request → HandlerOutcome) (serviceName : String)
    (endpointId : Option String) (env : LogEnv) (t0 t1 : Int) (nowIso : String)
    (req : Request) (resp : Response)
    (hh : handler req = HandlerOutcome.ok resp) :
    (withUsageTracking handler serviceName endpointId env t0 t1 nowIso req).dispatchedRecords =
      [{ serviceName := serviceName, endpointId := endpointId,
         projectName := deriveProjectName req, requestTimestamp := nowIso,
         responseStatus := resp.status, responseTimeMs := t1 - t0,
         errorMessage := none,
         requestMetadata := [("method", Json.str req.method),
                             ("url", Json.str req.url),
                             ("userAgent", headerJson (headersGet req.headers "user-agent")),
                             ("origin", headerJson (headersGet req.headers "origin"))] }]
    ∧ (withUsageTracking handler serviceName endpointId env t0 t1 nowIso req).response = resp := by
  unfold withUsageTracking
  rw [hh]
  exact ⟨rfl, rfl⟩

/-- Claim C3, witness at a concrete handler returning status 404. -/
theorem successPath_record_and_response_witness :
    (withUsageTracking
        (fun _ => HandlerOutcome.ok
          { status := 404, headers := [("X-K", "v")], body := Json.str "nope" })
        "svc" none
        { supabaseUrl := some "u", supabaseServiceKey := some "k",
          insertBehavior := fun _ => InsertResult.ok }
        1 4 "ts"
        { method := "POST", url := "https://example.test/c",
          headers := [("user-agent", "UA"), ("origin", "O")],
          bodyJson := none, bodyUsed := false }).dispatchedRecords =
      [{ serviceName := "svc", endpointId := none,
         projectName := deriveProjectName
           { method := "POST", url := "https://example.test/c",
             headers := [("user-agent", "UA"), ("origin", "O")],
             bodyJson := none, bodyUsed := false },
         requestTimestamp := "ts",
         responseStatus := 404, responseTimeMs := (4 : Int) - 1,
         errorMessage := none,
         requestMetadata := [("method", Json.str "POST"),
                             ("url", Json.str "https://example.test/c"),
                             ("userAgent", headerJson (headersGet
                               [("user-agent", "UA"), ("origin", "O")] "user-agent")),
                             ("origin", headerJson (headersGet
                               [("user-agent", "UA"), ("origin", "O")] "origin"))] }]
    ∧ (withUsageTracking
        (fun _ => HandlerOutcome.ok
          { status := 404, headers := [("X-K", "v")], body := Json.str "nope" })
        "svc" none
        { supabaseUrl := some "u", supabaseServiceKey := some "k",
          insertBehavior := fun _ => InsertResult.ok }
        1 4 "ts"
        { method := "POST", url := "https://example.test/c",
          headers := [("user-agent", "UA"), ("origin", "O")],
          bodyJson := none, bodyUsed := false }).response =
      { status := 404, headers := [("X-K", "v")], body := Json.str "nope" } :=
  successPath_record_and_response
    (fun _ => HandlerOutcome.ok
      { status := 404, headers := [("X-K", "v")], body := Json.str "nope" })
    "svc" none
    { supabaseUrl := some "u", supabaseServiceKey := some "k",
      insertBehavior := fun _ => InsertResult.ok }
    1 4 "ts"
    { method := "POST", url := "https://example.test/c",
      headers := [("user-agent", "UA"), ("origin", "O")],
      bodyJson := none, bodyUsed := false }
    { status := 404, headers := [("X-K", "v")], body := Json.str "nope" }
    rfl

/-- Claim C4: the logging path never influences the request path. For
any two logging environments, covering missing configuration, storage
rejection and network failure to storage, the response returned to the
caller and the record that was dispatched are identical; and every call
of logUsage settles normally with exactly one diagnostic line, so a
logging failure is reported on the diagnostic channel and never
propagates into the wrapped handler. -/
theorem loggingFailure_isolated_from_response
    (handler : Request → HandlerOutcome) (serviceName : String)
    (endpointId : Option String) (env envAlt : LogEnv) (t0 t1 : Int) (nowIso : String)
    (req : Request) :
    (withUsageTracking handler serviceName endpointId env t0 t1 nowIso req).response =
      (withUsageTracking handler serviceName endpointId envAlt t0 t1 nowIso req).response
    ∧ (withUsageTracking handler serviceName endpointId env t0 t1 nowIso req).dispatchedRecords =
      (withUsageTracking handler serviceName endpointId envAlt t0 t1 nowIso req).dispatchedRecords
    ∧ ∀ data : UsageRecord, (logUsage env data).diagnostics.length = 1 := by
  refine ⟨?_, ?_, ?_⟩
  · unfold withUsageTracking
    cases handler req <;> rfl
  · unfold withUsageTracking
    cases handler req <;> rfl
  · intro data
    unfold logUsage
    by_cases h : (jsFalsyStr env.supabaseUrl || jsFalsyStr env.supabaseServiceKey) = true
    · simp [h]
    · simp only [Bool.not_eq_true] at h
      simp only [h, Bool.false_eq_true, if_false]
      cases env.insertBehavior { table := "service_usage_logs", row := buildInsertRow data } <;> rfl

/-- Claim C5: every invocation of the wrapped handler dispatches exactly
one UsageRecord to the usage logger, never zero and never more than one,
whether the handler returns normally or throws. -/
theorem exactly_one_record_per_invocation
    (handler : Request → HandlerOutcome) (serviceName : String)
    (endpointId : Option String) (env : LogEnv) (t0 t1 : Int) (nowIso : String)
    (req : Request) :
    (withUsageTracking handler serviceName endpointId env t0 t1 nowIso req).dispatchedRecords.length = 1
    ∧ (withUsageTracking handler serviceName endpointId env t0 t1 nowIso req).logResults.length = 1 := by
  unfold withUsageTracking
  cases handler req <;> exact ⟨rfl, rfl⟩

/-- Claim C6: the wrapper parses only a clone of the request, and the
wrapped handler is invoked with the original request itself; when the
body was unread at entry it is still unread from the point of view of
the handler, whose own json call yields the intact body. -/
theorem handler_receives_original_unread_request
    (handler : Request → HandlerOutcome) (serviceName : String)
    (endpointId : Option String) (env : LogEnv) (t0 t1 : Int) (nowIso : String)
    (req : Request)
    (hunread : req.bodyUsed = false) :
    (withUsageTracking handler serviceName endpointId env t0 t1 nowIso req).handlerReq = req
    ∧ (withUsageTracking handler serviceName endpointId env t0 t1 nowIso req).handlerReq.bodyUsed = false
    ∧ (Request.jsonMethod
        (withUsageTracking handler serviceName endpointId env t0 t1 nowIso req).handlerReq).2 =
      req.bodyJson := by
  have hreq : (withUsageTracking handler serviceName endpointId env t0 t1 nowIso req).handlerReq = req := by
    unfold withUsageTracking
    cases handler req <;> rfl
  refine ⟨hreq, ?_, ?_⟩
  · rw [hreq, hunread]
  · rw [hreq]
    unfold Request.jsonMethod
    rw [hunread]
    rfl

/-- Claim C6, witness at a concrete request with an unread JSON body. -/
theorem handler_receives_original_unread_request_witness :
    (withUsageTracking (fun _ => HandlerOutcome.ok { status := 200, headers := [], body := Json.null })
        "svc" none
        { supabaseUrl := some "u", supabaseServiceKey := some "k",
          insertBehavior := fun _ => InsertResult.ok }
        0 2 "ts"
        { method := "PUT", url := "https://example.test/d", headers := [],
          bodyJson := some (Json.obj [("project_name", Json.str "acme")]),
          bodyUsed := false }).handlerReq =
      { method := "PUT", url := "https://example.test/d", headers := [],
        bodyJson := some (Json.obj [("project_name", Json.str "acme")]),
        bodyUsed := false }
    ∧ (withUsageTracking (fun _ => HandlerOutcome.ok { status := 200, headers := [], body := Json.null })
        "svc" none
        { supabaseUrl := some "u", supabaseServiceKey := some "k",
          insertBehavior := fun _ => InsertResult.ok }
        0 2 "ts"
        { method := "PUT", url := "https://example.test/d", headers := [],
          bodyJson := some (Json.obj [("project_name", Json.str "acme")]),
          bodyUsed := false }).handlerReq.bodyUsed = false
    ∧ (Request.jsonMethod
        (withUsageTracking (fun _ => HandlerOutcome.ok { status := 200, headers := [], body := Json.null })
          "svc" none
          { supabaseUrl := some "u", supabaseServiceKey := some "k",
            insertBehavior := fun _ => InsertResult.ok }
          0 2 "ts"
          { method := "PUT", url := "https://example.test/d", headers := [],
            bodyJson := some (Json.obj [("project_name", Json.str "acme")]),
            bodyUsed := false }).handlerReq).2 =
      some (Json.obj [("project_name", Json.str "acme")]) :=
  handler_receives_original_unread_request
    (fun _ => HandlerOutcome.ok { status := 200, headers := [], body := Json.null })
    "svc" none
    { supabaseUrl := some "u", supabaseServiceKey := some "k",
      insertBehavior := fun _ => InsertResult.ok }
    0 2 "ts"
    { method := "PUT", url := "https://example.test/d", headers := [],
      bodyJson := some (Json.obj [("project_name", Json.str "acme")]),
      bodyUsed := false }
    rfl

/-- Claim C7: whichever way the handler settles, the dispatched record
carries responseTimeMs equal to the difference of the settlement and
entry clock readings, and this value is at least 0 whenever the clock
did not run backwards between the two readings. -/
theorem responseTime_elapsed_and_nonneg
    (handler : Request → HandlerOutcome) (serviceName : String)
    (endpointId : Option String) (env : LogEnv) (t0 t1 : Int) (nowIso : String)
    (req : Request)
    (hclock : t0 ≤ t1) :
    (withUsageTracking handler serviceName endpointId env t0 t1 nowIso req).dispatchedRecords.map
      (fun r => r.responseTimeMs) = [t1 - t0]
    ∧ 0 ≤ t1 - t0 := by
  constructor
  · unfold withUsageTracking
    cases handler req <;> rfl
  · omega

/-- Claim C7, witness with concrete clock readings 2 and 7, on a
throwing handler. -/
theorem responseTime_elapsed_and_nonneg_witness :
    (withUsageTracking (fun _ => HandlerOutcome.thrown (ThrownValue.errObj "x"))
        "svc" none
        { supabaseUrl := some "u", supabaseServiceKey := some "k",
          insertBehavior := fun _ => InsertResult.ok }
        2 7 "ts"
        { method := "GET", url := "https://example.test/e", headers := [],
          bodyJson := none, bodyUsed := false }).dispatchedRecords.map
      (fun r => r.responseTimeMs) = [(7 : Int) - 2]
    ∧ (0 : Int) ≤ (7 : Int) - 2 :=
  responseTime_elapsed_and_nonneg
    (fun _ => HandlerOutcome.thrown (ThrownValue.errObj "x"))
    "svc" none
    { supabaseUrl := some "u", supabaseServiceKey := some "k",
      insertBehavior := fun _ => InsertResult.ok }
    2 7 "ts"
    { method := "GET", url := "https://example.test/e", headers := [],
      bodyJson := none, bodyUsed := false }
    (by decide)

/-- Claim C8: with both configuration variables present and non-empty,
logUsage constructs exactly one insert, against the service_usage_logs
table, whose row maps every UsageRecord field to its column, writes both
payload sizes as 0, and writes endpoint_id as null when endpointId is
absent (or empty). -/
theorem logUsage_single_insert_mapping
    (env : LogEnv) (data : UsageRecord)
    (hu : jsFalsyStr env.supabaseUrl = false)
    (hk : jsFalsyStr env.supabaseServiceKey = false) :
    (logUsage env data).inserts.map (fun op => op.table) = ["service_usage_logs"]
    ∧ (logUsage env data).inserts.map (fun op => op.row) =
      [{ service_name := data.serviceName,
         endpoint_id :=
           match data.endpointId with
           | none => none
           | some s => if s == "" then none else some s,
         project_name := data.projectName,
         request_timestamp := data.requestTimestamp,
         response_status := data.responseStatus,
         response_time_ms := data.responseTimeMs,
         request_payload_size := 0,
         response_payload_size := 0,
         error_message := data.errorMessage,
         request_metadata := data.requestMetadata }] := by
  unfold logUsage
  simp only [hu, hk, Bool.or_self, Bool.false_eq_true, if_false]
  cases env.insertBehavior { table := "service_usage_logs", row := buildInsertRow data } <;>
    exact ⟨rfl, rfl⟩

/-- Claim C8, witness at a concrete environment and record. -/
theorem logUsage_single_insert_mapping_witness :
    (logUsage
        { supabaseUrl := some "u", supabaseServiceKey := some "k",
          insertBehavior := fun _ => InsertResult.dbError "down" }
        { serviceName := "svc", endpointId := none, projectName := Json.str "p",
          requestTimestamp := "ts", responseStatus := 201, responseTimeMs := 9,
          errorMessage := none,
          requestMetadata := [("method", Json.str "GET")] }).inserts.map
      (fun op => op.table) = ["service_usage_logs"]
    ∧ (logUsage
        { supabaseUrl := some "u", supabaseServiceKey := some "k",
          insertBehavior := fun _ => InsertResult.dbError "down" }
        { serviceName := "svc", endpointId := none, projectName := Json.str "p",
          requestTimestamp := "ts", responseStatus := 201, responseTimeMs := 9,
          errorMessage := none,
          requestMetadata := [("method", Json.str "GET")] }).inserts.map
      (fun op => op.row) =
      [{ service_name := "svc",
         endpoint_id :=
           match (none : Option String) with
           | none => none
           | some s => if s == "" then none else some s,
         project_name := Json.str "p",
         request_timestamp := "ts",
         response_status := 201,
         response_time_ms := 9,
         request_payload_size := 0,
         response_payload_size := 0,
         error_message := none,
         request_metadata := [("method", Json.str "GET")] }] :=
  logUsage_single_insert_mapping
    { supabaseUrl := some "u", supabaseServiceKey := some "k",
      insertBehavior := fun _ => InsertResult.dbError "down" }
    { serviceName := "svc", endpointId := none, projectName := Json.str "p",
      requestTimestamp := "ts", responseStatus := 201, responseTimeMs := 9,
      errorMessage := none,
      requestMetadata := [("method", Json.str "GET")] }
    rfl rfl

/-- Claim C9: when the handler throws a plain string instead of an Error
object, the wrapper still returns the generic 500 response and logs one
record, but the message property of the thrown value is undefined, so
the UsageRecord errorMessage is undefined and the response body carries
no message field at all, never the thrown text itself. -/
theorem nonError_throw_takes_undefined_message
    (handler : Request → HandlerOutcome) (serviceName : String)
    (endpointId : Option String) (env : LogEnv) (t0 t1 : Int) (nowIso : String)
    (req : Request) (s : String)
    (hh : handler req = HandlerOutcome.thrown (ThrownValue.strVal s)) :
    (withUsageTracking handler serviceName endpointId env t0 t1 nowIso req).response.status = 500
    ∧ (withUsageTracking handler serviceName endpointId env t0 t1 nowIso req).response.body =
      Json.obj [("error", Json.str "Internal server error")]
    ∧ (withUsageTracking handler serviceName endpointId env t0 t1 nowIso req).dispatchedRecords.map
      (fun r => r.errorMessage) = [none]
    ∧ ThrownValue.messageProp (ThrownValue.strVal s) = none := by
  unfold withUsageTracking
  rw [hh]
  exact ⟨rfl, rfl, rfl, rfl⟩

/-- Claim C9, witness at a handler that throws the plain string oops. -/
theorem nonError_throw_takes_undefined_message_witness :
    (withUsageTracking (fun _ => HandlerOutcome.thrown (ThrownValue.strVal "oops"))
        "svc" none
        { supabaseUrl := some "u", supabaseServiceKey := some "k",
          insertBehavior := fun _ => InsertResult.ok }
        0 1 "ts"
        { method := "GET", url := "https://example.test/f", headers := [],
          bodyJson := none, bodyUsed := false }).response.status = 500
    ∧ (withUsageTracking (fun _ => HandlerOutcome.thrown (ThrownValue.strVal "oops"))
        "svc" none
        { supabaseUrl := some "u", supabaseServiceKey := some "k",
          insertBehavior := fun _ => InsertResult.ok }
        0 1 "ts"
        { method := "GET", url := "https://example.test/f", headers := [],
          bodyJson := none, bodyUsed := false }).response.body =
      Json.obj [("error", Json.str "Internal server error")]
    ∧ (withUsageTracking (fun _ => HandlerOutcome.thrown (ThrownValue.strVal "oops"))
        "svc" none
        { supabaseUrl := some "u", supabaseServiceKey := some "k",
          insertBehavior := fun _ => InsertResult.ok }
        0 1 "ts"
        { method := "GET", url := "https://example.test/f", headers := [],
          bodyJson := none, bodyUsed := false }).dispatchedRecords.map
      (fun r => r.errorMessage) = [none]
    ∧ ThrownValue.messageProp (ThrownValue.strVal "oops") = none :=
  nonError_throw_takes_undefined_message
    (fun _ => HandlerOutcome.thrown (ThrownValue.strVal "oops"))
    "svc" none
    { supabaseUrl := some "u", supabaseServiceKey := some "k",
      insertBehavior := fun _ => InsertResult.ok }
    0 1 "ts"
    { method := "GET", url := "https://example.test/f", headers := [],
      bodyJson := none, bodyUsed := false }
    "oops" rfl

/-- Claim C10: an endpointId supplied as the empty string is written to
the endpoint_id column as null, and the whole logUsage call behaves
identically to one for a record with no endpointId at all, making the
two indistinguishable in the log store. -/
theorem empty_endpointId_written_null
    (env : LogEnv) (data : UsageRecord) :
    (buildInsertRow { data with endpointId := some "" }).endpoint_id = none
    ∧ logUsage env { data with endpointId := some "" } =
      logUsage env { data with endpointId := none } := by
  constructor
  · rfl
  · have hrow : buildInsertRow { data with endpointId := some "" } =
        buildInsertRow { data with endpointId := none } := rfl
    unfold logUsage
    rw [hrow]

end UsageTracking
